import Mathlib

/-!
Verification of the AdhaanLive browser-automation utilities (`src/util.py`).

The two procedures under study are `get_m3u8_url` (the spec's
StreamURLFinder / findManifestUrl) and `unmute_video` (the spec's
AutoUnmuter / attemptUnmute).  Both drive a browser; we embed them
shallowly: the environment (whether navigation succeeds, which network
requests were captured, whether DOM elements appear, whether clicks
raise) is an explicit input, and each procedure returns an outcome
record describing its observable behaviour (result value, whether an
exception propagated to the caller, whether `driver.quit()` ran, how
many hover iterations ran, how many clicks were performed, what was
logged).  The control flow of the Python — `try`/`except`/`finally`
placement, the `for _ in range(5)` loop with `break`, the nested
per-iteration `try` — is mirrored branch by branch.
-/

namespace AdhaanLive

/-- Boolean test `c == d` on characters, extended to a prefix test on
character lists; used to express Python's substring operator `in`. -/
def charsHasPrefix : List Char → List Char → Bool
  | [], _ => true
  | _ :: _, [] => false
  | c :: cs, d :: ds => c == d && charsHasPrefix cs ds

/-- `charsContains needle hay` is true iff `needle` occurs as a
contiguous run inside `hay`; executable model of Python `needle in hay`. -/
def charsContains : List Char → List Char → Bool
  | needle, [] => charsHasPrefix needle []
  | needle, d :: ds => charsHasPrefix needle (d :: ds) || charsContains needle ds

/-- Python's `needle in hay` on strings: substring containment. -/
def containsSubstr (needle hay : String) : Bool :=
  charsContains needle.data hay.data

/-- ASCII lower-casing of a single character, as Python `str.lower()`
acts on the ASCII range (the config values at issue are ASCII). -/
def asciiLowerChar (c : Char) : Char :=
  if 'A' ≤ c ∧ c ≤ 'Z' then Char.ofNat (c.toNat + 32) else c

/-- Python `s.lower()` restricted to ASCII strings. -/
def asciiLower (s : String) : String := ⟨s.data.map asciiLowerChar⟩

/-- The manifest file-extension marker scanned for in `get_m3u8_url`
(`".m3u8" in request.url`, util.py line 69). -/
def m3u8Marker : String := ".m3u8"

/-- A captured network request as exposed by selenium-wire:
`request.url` and whether a response object is present
(`request.response` truthiness, util.py line 69). -/
structure Request where
  url : String
  response : Bool
deriving DecidableEq, Repr

/-- The configuration values read from `config.yml` that the two
procedures consult: `livestream.url`, `livestream.auto_unmute`,
`livestream.browser`, `livestream.wait_time` (util.py lines 30-33). -/
structure Config where
  livestreamUrl : String
  autoUnmute : Bool
  browser : String
  waitTime : Nat
deriving DecidableEq, Repr

/-- The hard-coded alternate-browser executable path set when the
config browser is "brave" (util.py line 56). -/
def bravePath : String :=
  "C:\\Program Files\\BraveSoftware\\Brave-Browser\\Application\\brave.exe"

/-- util.py lines 55-56: `if BROWSER.lower() == "brave":
chrome_options.binary_location = <brave path>`; `none` means the
default Chrome binary is used. -/
def chooseBinaryLocation (browser : String) : Option String :=
  if asciiLower browser == "brave" then some bravePath else none

/-- The scan loop of util.py lines 67-71:
`for request in driver.requests: if request.response and ".m3u8" in
request.url: m3u8_url = request.url; break`.  Returns the url of
the first matching request in capture order, else `none`. -/
def findFirstM3u8 : List Request → Option String
  | [] => none
  | r :: rs =>
    if r.response && containsSubstr m3u8Marker r.url then some r.url
    else findFirstM3u8 rs

/-- Environment for one call of `get_m3u8_url`: whether the body of the
`try` (navigation, sleep, request iteration, util.py lines 61-78) runs
without raising, and the captured requests in capture order. -/
structure FinderEnv where
  navOk : Bool
  requests : List Request
deriving DecidableEq, Repr

/-- Observable outcome of one call of `get_m3u8_url`: the returned
value, whether `driver.quit()` ran, whether an exception escaped to
the caller, and the `binary_location` the browser was launched with
(`none` = default Chrome). -/
structure FinderOutcome where
  result : Option String
  quitCalled : Bool
  raised : Bool
  binaryLocation : Option String
deriving DecidableEq, Repr

/-- util.py lines 38-84.  The browser options are built and the binary
chosen from the config; then `try:` navigate, wait, scan requests,
return the first match or `None`; `except Exception:` log and return
`None`; `finally: driver.quit()`.  The `finally` runs on every path,
and the `except` swallows every exception, so every branch sets
`quitCalled := true` and `raised := false`. -/
def get_m3u8_url (cfg : Config) (pageUrl : String) (env : FinderEnv) :
    FinderOutcome :=
  if env.navOk then
    { result := findFirstM3u8 env.requests
      quitCalled := true
      raised := false
      binaryLocation := chooseBinaryLocation cfg.browser }
  else
    { result := none
      quitCalled := true
      raised := false
      binaryLocation := chooseBinaryLocation cfg.browser }

/-- The predicate the scan selects on: a response is present and the
url contains the marker (util.py line 69, in source operand order). -/
def matchesManifest (r : Request) : Bool :=
  r.response && containsSubstr m3u8Marker r.url

theorem findFirstM3u8_eq_find (reqs : List Request) :
    findFirstM3u8 reqs = (reqs.find? matchesManifest).map Request.url := by
  induction reqs with
  | nil => rfl
  | cons r rs ih =>
    by_cases h : matchesManifest r = true
    · rw [List.find?_cons_of_pos _ h]
      simp only [findFirstM3u8, matchesManifest] at h ⊢
      rw [if_pos h]
      rfl
    · rw [List.find?_cons_of_neg _ h]
      simp only [findFirstM3u8, matchesManifest] at h ⊢
      rw [if_neg h, ih]

theorem findFirstM3u8_eq_none (reqs : List Request)
    (h : ∀ r ∈ reqs, matchesManifest r = false) :
    findFirstM3u8 reqs = none := by
  rw [findFirstM3u8_eq_find, List.find?_eq_none.2]
  · rfl
  · intro r hr
    simp [h r hr]

/-- Environment for one hover iteration of the loop at util.py lines
141-157: whether `actions.move_to_element(video_element).perform()`
runs without raising (line 142, outside the inner `try`), whether the
mute button is found by `WebDriverWait(driver, 3)` within its window
(lines 148-150), and whether locating the inner svg and clicking it
(lines 152-153) run without raising. -/
structure IterEnv where
  hoverOk : Bool
  muteFound : Bool
  svgClickOk : Bool
deriving DecidableEq, Repr

/-- Result of one hover iteration: `success` = mute button found and
clicked, then `break` (line 155); `retry` = the inner `except` at line
156 fired (timeout waiting for the button, or the svg lookup/click
raised) and the loop continues; `escape` = an exception outside the
inner `try` (the hover itself) escapes the loop body. -/
inductive IterOutcome where
  | success
  | retry
  | escape
deriving DecidableEq, Repr

/-- One iteration of the hover loop body (util.py lines 142-157).  The
hover is outside the inner `try`, so its failure escapes; inside the
`try`, a wait timeout raises before any click, and an svg-lookup or
click failure raises after the button was found; both land in the
line-156 `except` and become `retry`. -/
def runIter (e : IterEnv) : IterOutcome :=
  if !e.hoverOk then IterOutcome.escape
  else if e.muteFound then
    if e.svgClickOk then IterOutcome.success else IterOutcome.retry
  else IterOutcome.retry

/-- How the hover loop ended: `clicked` via the `break` at line 155,
`exhausted` when `range(5)` ran out, `escaped` when an exception left
the loop body for the outer handler. -/
inductive LoopExit where
  | clicked
  | exhausted
  | escaped
deriving DecidableEq, Repr

/-- Aggregate observable behaviour of the hover loop: how it ended,
how many iterations began executing, how many clicks were performed,
and how many line-157 retry warnings were logged. -/
structure LoopResult where
  exit : LoopExit
  iterationsRun : Nat
  clicks : Nat
  warnings : Nat
deriving DecidableEq, Repr

/-- The `for _ in range(5)` loop of util.py lines 141-157, with the
iteration environments indexed from `i` and `fuel` iterations
remaining.  `success` performs one click and breaks; `escape`
propagates out of the loop; `retry` logs a warning and continues. -/
def hoverLoop (env : Nat → IterEnv) : Nat → Nat → LoopResult
  | _, 0 => { exit := LoopExit.exhausted, iterationsRun := 0, clicks := 0, warnings := 0 }
  | i, fuel + 1 =>
    match runIter (env i) with
    | IterOutcome.success =>
      { exit := LoopExit.clicked, iterationsRun := 1, clicks := 1, warnings := 0 }
    | IterOutcome.escape =>
      { exit := LoopExit.escaped, iterationsRun := 1, clicks := 0, warnings := 0 }
    | IterOutcome.retry =>
      let r := hoverLoop env (i + 1) fuel
      { exit := r.exit, iterationsRun := r.iterationsRun + 1, clicks := r.clicks,
        warnings := r.warnings + 1 }

/-- Environment for one call of `unmute_video`: whether
`webdriver.Chrome(options=options)` succeeds (line 122), whether
`driver.get(LIVESTREAM_URL)` succeeds (line 125), whether the iframe
wait/lookup/switch succeed (lines 129-131), whether the video
wait/lookup succeed (lines 135-136), and the per-iteration hover-loop
environment. -/
structure UnmuteEnv where
  driverCreateOk : Bool
  navOk : Bool
  iframeFound : Bool
  videoFound : Bool
  iter : Nat → IterEnv

/-- Observable outcome of one call of `unmute_video`: whether an
exception propagated to the caller, whether a browser session was
created, whether the livestream page finished navigating, how many
hover iterations ran, how many clicks were performed, how many retry
warnings were logged, whether the line-160 `logging.exception` of the
outer handler ran, whether `driver.quit()` was ever called, and the
`binary_location` of the launched driver (`none` = default Chrome). -/
structure UnmuteOutcome where
  raised : Bool
  sessionCreated : Bool
  navigated : Bool
  iterationsRun : Nat
  clicks : Nat
  retryWarnings : Nat
  errorLogged : Bool
  quitCalled : Bool
  binaryLocation : Option String
deriving DecidableEq, Repr

/-- util.py lines 108-162.  Branches in source order: the
`AUTO_UNMUTE` guard returns immediately (lines 113-115); driver
creation (line 122) and `driver.get` (line 125) happen BEFORE the
`try` at line 127, so their exceptions propagate to the caller; the
`try` covers iframe discovery, video discovery and the hover loop,
and its `except` (lines 159-160) logs and swallows; no branch calls
`driver.quit()`, and the driver options never set a binary location. -/
def unmute_video (cfg : Config) (env : UnmuteEnv) : UnmuteOutcome :=
  if !cfg.autoUnmute then
    { raised := false, sessionCreated := false, navigated := false,
      iterationsRun := 0, clicks := 0, retryWarnings := 0, errorLogged := false,
      quitCalled := false, binaryLocation := none }
  else if !env.driverCreateOk then
    { raised := true, sessionCreated := false, navigated := false,
      iterationsRun := 0, clicks := 0, retryWarnings := 0, errorLogged := false,
      quitCalled := false, binaryLocation := none }
  else if !env.navOk then
    { raised := true, sessionCreated := true, navigated := false,
      iterationsRun := 0, clicks := 0, retryWarnings := 0, errorLogged := false,
      quitCalled := false, binaryLocation := none }
  else if !env.iframeFound then
    { raised := false, sessionCreated := true, navigated := true,
      iterationsRun := 0, clicks := 0, retryWarnings := 0, errorLogged := true,
      quitCalled := false, binaryLocation := none }
  else if !env.videoFound then
    { raised := false, sessionCreated := true, navigated := true,
      iterationsRun := 0, clicks := 0, retryWarnings := 0, errorLogged := true,
      quitCalled := false, binaryLocation := none }
  else
    let r := hoverLoop env.iter 0 5
    { raised := false, sessionCreated := true, navigated := true,
      iterationsRun := r.iterationsRun, clicks := r.clicks,
      retryWarnings := r.warnings,
      errorLogged := match r.exit with | LoopExit.escaped => true | _ => false,
      quitCalled := false, binaryLocation := none }

theorem hoverLoop_run_le (env : Nat → IterEnv) (i fuel : Nat) :
    (hoverLoop env i fuel).iterationsRun ≤ fuel := by
  induction fuel generalizing i with
  | zero => simp [hoverLoop]
  | succ n ih =>
    rw [hoverLoop]
    cases h : runIter (env i) with
    | success => simp
    | escape => simp
    | retry =>
      simp only
      exact Nat.succ_le_succ (ih (i + 1))

theorem hoverLoop_first_success (env : Nat → IterEnv) (k : Nat) :
    ∀ i fuel : Nat, k < fuel →
      runIter (env (i + k)) = IterOutcome.success →
      (∀ j, j < k → runIter (env (i + j)) = IterOutcome.retry) →
      hoverLoop env i fuel =
        { exit := LoopExit.clicked, iterationsRun := k + 1, clicks := 1,
          warnings := k } := by
  induction k with
  | zero =>
    intro i fuel hf hs _
    match fuel, hf with
    | m + 1, _ =>
      have hs0 : runIter (env i) = IterOutcome.success := by simpa using hs
      rw [hoverLoop, hs0]
  | succ k ih =>
    intro i fuel hf hs hp
    match fuel, hf with
    | m + 1, hf =>
      have h0 : runIter (env i) = IterOutcome.retry := by
        simpa using hp 0 (Nat.succ_pos k)
      rw [hoverLoop, h0]
      have hs' : runIter (env (i + 1 + k)) = IterOutcome.success := by
        rw [show i + 1 + k = i + (k + 1) by omega]; exact hs
      have hp' : ∀ j, j < k → runIter (env (i + 1 + j)) = IterOutcome.retry := by
        intro j hj
        rw [show i + 1 + j = i + (j + 1) by omega]
        exact hp (j + 1) (by omega)
      rw [ih (i + 1) m (by omega) hs' hp']

theorem hoverLoop_all_retry (env : Nat → IterEnv) :
    ∀ i fuel : Nat, (∀ j, j < fuel → runIter (env (i + j)) = IterOutcome.retry) →
      hoverLoop env i fuel =
        { exit := LoopExit.exhausted, iterationsRun := fuel, clicks := 0,
          warnings := fuel } := by
  intro i fuel
  induction fuel generalizing i with
  | zero => intro _; rfl
  | succ n ih =>
    intro hp
    have h0 : runIter (env i) = IterOutcome.retry := by
      simpa using hp 0 (Nat.succ_pos n)
    rw [hoverLoop, h0]
    have hp' : ∀ j, j < n → runIter (env (i + 1 + j)) = IterOutcome.retry := by
      intro j hj
      rw [show i + 1 + j = i + (j + 1) by omega]
      exact hp (j + 1) (by omega)
    rw [ih (i + 1) hp']

theorem hoverLoop_continue (env : Nat → IterEnv) (m : Nat) :
    ∀ i fuel : Nat, m < fuel →
      (∀ j, j < m → runIter (env (i + j)) = IterOutcome.retry) →
      m + 1 ≤ (hoverLoop env i fuel).iterationsRun := by
  induction m with
  | zero =>
    intro i fuel hf _
    match fuel, hf with
    | n + 1, _ =>
      rw [hoverLoop]
      cases runIter (env i) <;> simp
  | succ m ih =>
    intro i fuel hf hp
    match fuel, hf with
    | n + 1, hf =>
      have h0 : runIter (env i) = IterOutcome.retry := by
        simpa using hp 0 (Nat.succ_pos m)
      rw [hoverLoop, h0]
      have hp' : ∀ j, j < m → runIter (env (i + 1 + j)) = IterOutcome.retry := by
        intro j hj
        rw [show i + 1 + j = i + (j + 1) by omega]
        exact hp (j + 1) (by omega)
      simpa using Nat.succ_le_succ (ih (i + 1) n (by omega) hp')

/-- A sample configuration with auto-unmute enabled. -/
def cfgOn : Config :=
  { livestreamUrl := "https://example.org/live", autoUnmute := true,
    browser := "chrome", waitTime := 10 }

/-- A sample configuration with auto-unmute disabled. -/
def cfgOff : Config :=
  { livestreamUrl := "https://example.org/live", autoUnmute := false,
    browser := "chrome", waitTime := 10 }

/-- An iteration in which the mute button never appears in the 3-unit
window (the common retry case). -/
def iterRetry : IterEnv := { hoverOk := true, muteFound := false, svgClickOk := true }

/-- An iteration in which the mute button is found and the click succeeds. -/
def iterSuccess : IterEnv := { hoverOk := true, muteFound := true, svgClickOk := true }

/-- An iteration in which the mute button is found but the svg
lookup/click raises. -/
def iterClickFail : IterEnv := { hoverOk := true, muteFound := true, svgClickOk := false }

/-- Unmute environment where `driver.get` fails. -/
def envNavFail : UnmuteEnv :=
  { driverCreateOk := true, navOk := false, iframeFound := true,
    videoFound := true, iter := fun _ => iterRetry }

/-- Unmute environment where the iframe never appears within its window. -/
def envNoIframe : UnmuteEnv :=
  { driverCreateOk := true, navOk := true, iframeFound := false,
    videoFound := true, iter := fun _ => iterRetry }

/-- Unmute environment where every hover iteration fails to find the
mute button. -/
def envAllRetry : UnmuteEnv :=
  { driverCreateOk := true, navOk := true, iframeFound := true,
    videoFound := true, iter := fun _ => iterRetry }

/-- Spec Scenario D: the mute control appears on hover iteration 3 of
5 (index 2) and the click succeeds. -/
def envScenarioD : UnmuteEnv :=
  { driverCreateOk := true, navOk := true, iframeFound := true,
    videoFound := true, iter := fun n => if n = 2 then iterSuccess else iterRetry }

/-- Unmute environment where on the first iteration the mute button is
found but the click raises, and later iterations find nothing. -/
def envClickFail0 : UnmuteEnv :=
  { driverCreateOk := true, navOk := true, iframeFound := true,
    videoFound := true, iter := fun n => if n = 0 then iterClickFail else iterRetry }

/-- Finder environment whose captured requests contain no entry that
both has a response and contains ".m3u8". -/
def finderNoMatch : FinderEnv :=
  { navOk := true,
    requests := [{ url := "https://cdn/a.mp4", response := true },
                 { url := "https://cdn/b.m3u8", response := false }] }

/-- Claim C1: for every ordered list of captured requests,
`get_m3u8_url` returns the URL of the first entry in capture order
whose URL contains ".m3u8" and whose response flag is true
(`List.find?` returns exactly the first element of the list, in
order, satisfying the predicate, so an entry without a response is
never selected even if it occurs earlier). -/
theorem C1_first_matching_request (cfg : Config) (u : String) (reqs : List Request) :
    (get_m3u8_url cfg u { navOk := true, requests := reqs }).result =
      (reqs.find? matchesManifest).map Request.url := by
  simpa [get_m3u8_url] using findFirstM3u8_eq_find reqs

/-- Claim C2 counterexample: with auto-unmute on, a driver that starts
but a navigation (`driver.get`, util.py line 125) that fails, the
exception propagates to the caller, because lines 122-125 sit before
the `try` at line 127; the claim that a navigation failure is caught
at the top level is false. -/
theorem C2_counterexample :
    (unmute_video cfgOn envNavFail).raised = true := rfl

/-- Claim C2 as amended: `unmute_video` swallows every error that
occurs after the initial navigation (iframe/video discovery and the
hover loop are inside the try/except), but an error while creating
the driver or navigating to the livestream page is NOT caught and
propagates to the caller. -/
theorem C2_no_raise_after_navigation (cfg : Config) (env : UnmuteEnv)
    (hc : env.driverCreateOk = true) (hn : env.navOk = true) :
    (unmute_video cfg env).raised = false := by
  cases ha : cfg.autoUnmute <;> cases hi : env.iframeFound <;>
    cases hv : env.videoFound <;> simp [unmute_video, ha, hc, hn, hi, hv]

/-- Claim C2 witness: the amended theorem at a concrete environment in
which navigation succeeds and all five hover iterations time out. -/
theorem C2_no_raise_after_navigation_witness :
    (unmute_video cfgOn envAllRetry).raised = false :=
  C2_no_raise_after_navigation cfgOn envAllRetry rfl rfl

/-- Claim C3: on every exit path of `get_m3u8_url` — URL found, no URL
found, or an exception caught — `driver.quit()` is executed (the
`finally` at util.py lines 83-84); no browser process is leaked. -/
theorem C3_browser_always_terminated (cfg : Config) (u : String) (env : FinderEnv) :
    (get_m3u8_url cfg u env).quitCalled = true := by
  unfold get_m3u8_url
  split <;> rfl

/-- Claim C4: the hover-retry loop executes at most 5 iterations, and
if the mute control is found and clicked on iteration `k` (all earlier
iterations having retried), the loop exits at once: `k + 1` iterations
ran and exactly one click was performed. -/
theorem C4_loop_bound_single_click (cfg : Config) (env : UnmuteEnv) (k : Nat)
    (ha : cfg.autoUnmute = true) (hc : env.driverCreateOk = true)
    (hn : env.navOk = true) (hi : env.iframeFound = true)
    (hv : env.videoFound = true) (hk : k < 5)
    (hs : runIter (env.iter k) = IterOutcome.success)
    (hp : ∀ j, j < k → runIter (env.iter j) = IterOutcome.retry) :
    (unmute_video cfg env).iterationsRun = k + 1 ∧
    (unmute_video cfg env).clicks = 1 ∧
    (unmute_video cfg env).iterationsRun ≤ 5 := by
  have hL := hoverLoop_first_success env.iter k 0 5 hk (by simpa using hs)
    (fun j hj => by simpa using hp j hj)
  simp only [unmute_video, ha, hc, hn, hi, hv, Bool.not_true, Bool.false_eq_true,
    if_false, hL]
  exact ⟨trivial, trivial, by omega⟩

/-- Claim C4 witness: spec Scenario D — the mute control appears on
hover iteration 3 of 5, so exactly 3 iterations run and one click is
performed. -/
theorem C4_loop_bound_single_click_witness :
    (unmute_video cfgOn envScenarioD).iterationsRun = 2 + 1 ∧
    (unmute_video cfgOn envScenarioD).clicks = 1 ∧
    (unmute_video cfgOn envScenarioD).iterationsRun ≤ 5 :=
  C4_loop_bound_single_click cfgOn envScenarioD 2 rfl rfl rfl rfl rfl
    (by decide) (by decide) (by decide)

/-- Claim C5: a failure to find the mute control within one hover
iteration's window does not abort the loop (if all 5 iterations time
out, all 5 run and the outer error handler never fires), whereas a
timeout or exception during iframe or video discovery aborts the
whole procedure with a log (`logging.exception`, line 160) before any
hover iteration runs, and no click is ever attempted. -/
theorem C5_failure_isolation (cfg : Config) (env : UnmuteEnv)
    (ha : cfg.autoUnmute = true) (hc : env.driverCreateOk = true)
    (hn : env.navOk = true) :
    ((env.iframeFound = false ∨ env.videoFound = false) →
      (unmute_video cfg env).errorLogged = true ∧
      (unmute_video cfg env).clicks = 0 ∧
      (unmute_video cfg env).iterationsRun = 0) ∧
    (env.iframeFound = true → env.videoFound = true →
      (∀ j, j < 5 → runIter (env.iter j) = IterOutcome.retry) →
      (unmute_video cfg env).iterationsRun = 5 ∧
      (unmute_video cfg env).clicks = 0 ∧
      (unmute_video cfg env).errorLogged = false) := by
  constructor
  · intro h
    cases hi : env.iframeFound with
    | false => simp [unmute_video, ha, hc, hn, hi]
    | true =>
      have hv : env.videoFound = false := by
        rcases h with h | h
        · rw [hi] at h; cases h
        · exact h
      simp [unmute_video, ha, hc, hn, hi, hv]
  · intro hi hv hp
    have hL := hoverLoop_all_retry env.iter 0 5 (fun j hj => by simpa using hp j hj)
    simp [unmute_video, ha, hc, hn, hi, hv, hL]

/-- Claim C5 witness: with the iframe never appearing, the procedure
aborts with a log, no click is attempted and no hover iteration runs. -/
theorem C5_failure_isolation_witness :
    (unmute_video cfgOn envNoIframe).errorLogged = true ∧
    (unmute_video cfgOn envNoIframe).clicks = 0 ∧
    (unmute_video cfgOn envNoIframe).iterationsRun = 0 :=
  (C5_failure_isolation cfgOn envNoIframe rfl rfl rfl).1 (Or.inl rfl)

/-- Claim C6: when no captured request both contains ".m3u8" and has a
response, `get_m3u8_url` returns `none` without raising; and when an
error occurs during navigation or capture the same `none` is
returned, so the caller cannot distinguish "not found" from
"errored". -/
theorem C6_not_found_and_error_indistinguishable (cfg : Config) (u : String)
    (env : FinderEnv)
    (h : ∀ r ∈ env.requests, matchesManifest r = false) :
    (get_m3u8_url cfg u env).result = none ∧
    (get_m3u8_url cfg u env).raised = false ∧
    (get_m3u8_url cfg u { navOk := false, requests := env.requests }).result = none := by
  refine ⟨?_, ?_, rfl⟩
  · unfold get_m3u8_url
    split
    · exact findFirstM3u8_eq_none env.requests h
    · rfl
  · unfold get_m3u8_url
    split <;> rfl

/-- Claim C6 witness: a capture list whose only ".m3u8" entry lacks a
response yields `none`, no exception, and the errored path yields the
same `none`. -/
theorem C6_not_found_witness :
    (get_m3u8_url cfgOn "https://page" finderNoMatch).result = none ∧
    (get_m3u8_url cfgOn "https://page" finderNoMatch).raised = false ∧
    (get_m3u8_url cfgOn "https://page"
      { navOk := false, requests := finderNoMatch.requests }).result = none :=
  C6_not_found_and_error_indistinguishable cfgOn "https://page" finderNoMatch
    (by decide)

/-- Claim C7: if the auto-unmute flag is false, `unmute_video` returns
immediately as a no-op: no browser session is created, no navigation
is performed, no hover iteration runs and no click occurs. -/
theorem C7_noop_when_disabled (cfg : Config) (env : UnmuteEnv)
    (h : cfg.autoUnmute = false) :
    (unmute_video cfg env).sessionCreated = false ∧
    (unmute_video cfg env).navigated = false ∧
    (unmute_video cfg env).iterationsRun = 0 ∧
    (unmute_video cfg env).clicks = 0 ∧
    (unmute_video cfg env).raised = false := by
  simp [unmute_video, h]

/-- Claim C7 witness: the disabled configuration at a concrete
environment. -/
theorem C7_noop_when_disabled_witness :
    (unmute_video cfgOff envAllRetry).sessionCreated = false ∧
    (unmute_video cfgOff envAllRetry).navigated = false ∧
    (unmute_video cfgOff envAllRetry).iterationsRun = 0 ∧
    (unmute_video cfgOff envAllRetry).clicks = 0 ∧
    (unmute_video cfgOff envAllRetry).raised = false :=
  C7_noop_when_disabled cfgOff envAllRetry rfl

/-- Claim C8: `unmute_video` never calls `driver.quit()` on any
outcome — success, exhaustion of the retries, or a caught error — the
session is deliberately left open. -/
theorem C8_session_never_terminated (cfg : Config) (env : UnmuteEnv) :
    (unmute_video cfg env).quitCalled = false := by
  cases h1 : cfg.autoUnmute <;> cases h2 : env.driverCreateOk <;>
    cases h3 : env.navOk <;> cases h4 : env.iframeFound <;>
    cases h5 : env.videoFound <;> simp [unmute_video, h1, h2, h3, h4, h5]

/-- Claim C9: the outcome of `unmute_video` is independent of the
`livestream.browser` setting (all other inputs equal), and it always
launches the default Chrome driver (no binary location set); only
`get_m3u8_url` consults the browser choice: with browser "Brave" it
launches the Brave executable, with "chrome" the default. -/
theorem C9_browser_choice_independence (cfg : Config) (env : UnmuteEnv)
    (b₁ b₂ : String) (u : String) (fenv : FinderEnv) :
    unmute_video { cfg with browser := b₁ } env =
      unmute_video { cfg with browser := b₂ } env ∧
    (unmute_video cfg env).binaryLocation = none ∧
    (get_m3u8_url { cfg with browser := "Brave" } u fenv).binaryLocation =
      some bravePath ∧
    (get_m3u8_url { cfg with browser := "chrome" } u fenv).binaryLocation = none := by
  refine ⟨by cases cfg; rfl, ?_, ?_, ?_⟩
  · cases h1 : cfg.autoUnmute <;> cases h2 : env.driverCreateOk <;>
      cases h3 : env.navOk <;> cases h4 : env.iframeFound <;>
      cases h5 : env.videoFound <;> simp [unmute_video, h1, h2, h3, h4, h5]
  · unfold get_m3u8_url
    split
    · show chooseBinaryLocation "Brave" = some bravePath
      decide
    · show chooseBinaryLocation "Brave" = some bravePath
      decide
  · unfold get_m3u8_url
    split
    · show chooseBinaryLocation "chrome" = none
      decide
    · show chooseBinaryLocation "chrome" = none
      decide

/-- Claim C10: in a hover iteration where the mute control is found
but the svg lookup/click raises, the per-iteration handler treats it
exactly like a not-found timeout (`retry`), and the loop continues to
the next iteration instead of aborting: with such an iteration at
index `k` (earlier iterations retrying) at least `k + 2` iterations
run. -/
theorem C10_click_failure_is_retried (cfg : Config) (env : UnmuteEnv) (k : Nat)
    (ha : cfg.autoUnmute = true) (hc : env.driverCreateOk = true)
    (hn : env.navOk = true) (hi : env.iframeFound = true)
    (hv : env.videoFound = true) (hk : k + 1 < 5)
    (hcf : env.iter k = { hoverOk := true, muteFound := true, svgClickOk := false })
    (hp : ∀ j, j < k → runIter (env.iter j) = IterOutcome.retry) :
    runIter (env.iter k) = IterOutcome.retry ∧
    runIter { hoverOk := true, muteFound := false, svgClickOk := false } =
      IterOutcome.retry ∧
    k + 2 ≤ (unmute_video cfg env).iterationsRun := by
  have hr : runIter (env.iter k) = IterOutcome.retry := by rw [hcf]; rfl
  refine ⟨hr, rfl, ?_⟩
  have hp' : ∀ j, j < k + 1 → runIter (env.iter (0 + j)) = IterOutcome.retry := by
    intro j hj
    rcases Nat.lt_succ_iff_lt_or_eq.mp hj with h | h
    · simpa using hp j h
    · subst h; simpa using hr
  have hcont := hoverLoop_continue env.iter (k + 1) 0 5 hk hp'
  simp only [unmute_video, ha, hc, hn, hi, hv, Bool.not_true, Bool.false_eq_true,
    if_false]
  omega

/-- Claim C10 witness: the click raises on the first iteration; the
iteration retries and a second iteration runs. -/
theorem C10_click_failure_is_retried_witness :
    runIter (envClickFail0.iter 0) = IterOutcome.retry ∧
    runIter { hoverOk := true, muteFound := false, svgClickOk := false } =
      IterOutcome.retry ∧
    0 + 2 ≤ (unmute_video cfgOn envClickFail0).iterationsRun :=
  C10_click_failure_is_retried cfgOn envClickFail0 0 rfl rfl rfl rfl rfl
    (by decide) (by decide) (by decide)

end AdhaanLive
